import Mathlib

/-!
Shallow embedding of the VisionCursor calibration / mapping / smoothing core
(src/vision/calibrator.py, src/vision/smoothing.py, src/storage/schema.py).

Python floats are modelled as exact rationals (ℚ) and Python ints as ℤ; the
claims settled here concern branch structure, clamping, ordering and exact
data-structure round trips, none of which depend on floating rounding.
Square roots (np.sqrt) are irrational in general, so functions that consume a
Euclidean magnitude take it as an explicit argument constrained in the
theorems by the defining property of the square root.
-/

/-- Python int() applied to a rational: truncation toward zero. -/
def pytrunc (q : ℚ) : ℤ := if 0 ≤ q then ⌊q⌋ else ⌈q⌉

/-- Model of np.clip(v, lo, hi) = np.minimum(np.maximum(v, lo), hi). -/
def npClip (v lo hi : ℚ) : ℚ := min (max v lo) hi

/-- Gaze direction vector (src/vision/gaze_estimator.py, class GazeVector). -/
structure GazeVector where
  x : ℚ
  y : ℚ
  confidence : ℚ
deriving DecidableEq

/-- Single calibration point (src/storage/schema.py, class CalibrationPoint). -/
structure CalibrationPoint where
  screen_x : ℚ
  screen_y : ℚ
  gaze_x : ℚ
  gaze_y : ℚ
  sample_count : ℤ
deriving DecidableEq

/-- CalibrationPoint.validate: true iff the Python method returns (rather than
raising ValueError). -/
def CalibrationPoint.validateB (p : CalibrationPoint) : Bool :=
  (0 ≤ p.screen_x && 0 ≤ p.screen_y) &&
  ((-2 ≤ p.gaze_x && p.gaze_x ≤ 2) && (-2 ≤ p.gaze_y && p.gaze_y ≤ 2)) &&
  (0 < p.sample_count)

/-- Complete calibration dataset (src/storage/schema.py, class CalibrationData). -/
structure CalibrationData where
  version : String
  timestamp : String
  screen_width : ℤ
  screen_height : ℤ
  points : List CalibrationPoint
deriving DecidableEq

/-- Constructor of CalibrationData including its __post_init__: an empty
timestamp is replaced by datetime.now().isoformat(), passed in here as the
argument `now`; an absent points argument (None) becomes the empty list. -/
def mkCalibrationData (now : String) (version : String) (timestamp : String)
    (w h : ℤ) (points : Option (List CalibrationPoint)) : CalibrationData :=
  { version := version
    timestamp := if timestamp = "" then now else timestamp
    screen_width := w
    screen_height := h
    points := points.getD [] }

/-- CalibrationData.validate: true iff the Python method returns. The check
`datetime.fromisoformat(self.timestamp)` is a Python-library call, abstracted
as the parameter `isoParsable` (true iff parsing does not raise). -/
def CalibrationData.validateB (isoParsable : String → Bool) (d : CalibrationData) : Bool :=
  (!(d.version = "")) &&
  (0 < d.screen_width && 0 < d.screen_height) &&
  (3 ≤ d.points.length) &&
  d.points.all CalibrationPoint.validateB &&
  isoParsable d.timestamp

/-- Dictionary produced by CalibrationPoint.to_dict (dataclasses.asdict): all
five keys always present. -/
structure CalibrationPointDict where
  screen_x : ℚ
  screen_y : ℚ
  gaze_x : ℚ
  gaze_y : ℚ
  sample_count : ℤ
deriving DecidableEq

/-- CalibrationPoint.to_dict. -/
def CalibrationPoint.to_dict (p : CalibrationPoint) : CalibrationPointDict :=
  ⟨p.screen_x, p.screen_y, p.gaze_x, p.gaze_y, p.sample_count⟩

/-- CalibrationPoint.from_dict (cls(**data): every key required). -/
def CalibrationPoint.from_dict (d : CalibrationPointDict) : CalibrationPoint :=
  ⟨d.screen_x, d.screen_y, d.gaze_x, d.gaze_y, d.sample_count⟩

/-- Dictionary form of CalibrationData: from_dict reads every field with
dict.get and a default, so each field is optional here. -/
structure CalibrationDataDict where
  version : Option String
  timestamp : Option String
  screen_width : Option ℤ
  screen_height : Option ℤ
  points : Option (List CalibrationPointDict)
deriving DecidableEq

/-- CalibrationData.to_dict. -/
def CalibrationData.to_dict (d : CalibrationData) : CalibrationDataDict :=
  ⟨some d.version, some d.timestamp, some d.screen_width, some d.screen_height,
   some (d.points.map CalibrationPoint.to_dict)⟩

/-- CalibrationData.from_dict; goes through the dataclass constructor, hence
through __post_init__ (parameter `now` as in mkCalibrationData). -/
def CalibrationData.from_dict (now : String) (d : CalibrationDataDict) : CalibrationData :=
  mkCalibrationData now (d.version.getD "1.0") (d.timestamp.getD "")
    (d.screen_width.getD 0) (d.screen_height.getD 0)
    (some ((d.points.getD []).map CalibrationPoint.from_dict))

/-- Insertion of an element into a sorted list of rationals. -/
def insertSorted (a : ℚ) : List ℚ → List ℚ
  | [] => [a]
  | b :: l => if a ≤ b then a :: b :: l else b :: insertSorted a l

/-- Sorting a list of rationals (insertion sort). scipy computes the trimmed
slice with np.partition, whose specified result on the sliced range is the
slice of the fully sorted array; any sorting function is extensionally the
same, and a structurally recursive one is used here. -/
def pysorted : List ℚ → List ℚ
  | [] => []
  | a :: l => insertSorted a (pysorted l)

/-- Model of scipy.stats.trim_mean(a, proportiontocut) for the nonnegative
trim proportions admitted by the callers (config domain [0, 0.5)):
lowercut = int(proportiontocut * nobs), uppercut = nobs - lowercut; raises
ValueError when lowercut > uppercut (modelled as none) and returns np.mean of
the sorted slice a_sorted[lowercut:uppercut], which is NaN when the slice is
empty (also modelled as none: no numeric result). -/
def trim_mean (l : List ℚ) (proportiontocut : ℚ) : Option ℚ :=
  let nobs := l.length
  let lowercut := (pytrunc (proportiontocut * nobs)).toNat
  let uppercut := nobs - lowercut
  if lowercut > uppercut then none
  else
    let middle := ((pysorted l).drop lowercut).take (uppercut - lowercut)
    if middle.length = 0 then none
    else some (middle.sum / middle.length)

/-- Single calibration target (src/vision/calibrator.py, CalibrationTarget). -/
structure CalibrationTarget where
  index : ℤ
  screen_x : ℚ
  screen_y : ℚ
  samples : List GazeVector
deriving DecidableEq

/-- CalibrationTarget.compute_average: none models every outcome of the
Python call that yields no numeric pair, i.e. the explicit None for fewer
than 10 samples as well as the NaN / ValueError outcomes of
scipy.stats.trim_mean on a degenerate trim proportion. -/
def CalibrationTarget.compute_average (t : CalibrationTarget) (trim_percent : ℚ) :
    Option (ℚ × ℚ) :=
  if t.samples.length < 10 then none
  else
    match trim_mean (t.samples.map GazeVector.x) trim_percent,
          trim_mean (t.samples.map GazeVector.y) trim_percent with
    | some ax, some ay => some (ax, ay)
    | _, _ => none

/-- Calibration procedure states (src/vision/calibrator.py, CalibrationState). -/
inductive CalibrationState where
  | IDLE
  | COUNTDOWN
  | COLLECTING
  | COMPLETED
deriving DecidableEq

/-- Calibration configuration fields consumed by the calibrator
(src/core/config.py, CalibrationConfig). -/
structure CalibrationConfig where
  samples_per_point : ℤ
  target_positions : List (ℚ × ℚ)
  outlier_trim_percent : ℚ
deriving DecidableEq

/-- Calibrator instance state (src/vision/calibrator.py, class Calibrator). -/
structure Calibrator where
  config : CalibrationConfig
  screen_width : ℤ
  screen_height : ℤ
  state : CalibrationState
  current_target_index : ℕ
  targets : List CalibrationTarget
  calibration_data : Option CalibrationData
deriving DecidableEq

/-- Calibrator.start. -/
def Calibrator.start (c : Calibrator) : Calibrator :=
  { c with
    state := CalibrationState.IDLE
    current_target_index := 0
    targets := c.config.target_positions.enum.map fun p =>
      { index := (p.1 : ℤ)
        screen_x := p.2.1 * (c.screen_width : ℚ)
        screen_y := p.2.2 * (c.screen_height : ℚ)
        samples := [] } }

/-- Calibrator.get_current_target: bounds check on the index only (the
Python guard 0 <= idx < len with a ℕ index). -/
def Calibrator.get_current_target (c : Calibrator) : Option CalibrationTarget :=
  if c.current_target_index < c.targets.length then
    c.targets[c.current_target_index]?
  else none

/-- Points assembled by the loop in Calibrator._finalize_calibration; none
models the ValueError raised at the first target whose compute_average
yields no numeric pair. -/
def buildPoints (trim : ℚ) : List CalibrationTarget → Option (List CalibrationPoint)
  | [] => some []
  | t :: rest =>
    match t.compute_average trim with
    | none => none
    | some (gx, gy) =>
      (buildPoints trim rest).map fun pts =>
        { screen_x := t.screen_x
          screen_y := t.screen_y
          gaze_x := gx
          gaze_y := gy
          sample_count := (t.samples.length : ℤ) } :: pts

/-- Calibrator._finalize_calibration. The try/except around the loop, the
CalibrationData construction (keyword arguments only: version and timestamp
defaulted, so __post_init__ stamps `now`) and the validate call are modelled
by the two failure branches, both ending in IDLE with no data. -/
def Calibrator.finalize_calibration (isoParsable : String → Bool) (now : String)
    (c : Calibrator) : Calibrator :=
  match buildPoints c.config.outlier_trim_percent c.targets with
  | none => { c with state := CalibrationState.IDLE, calibration_data := none }
  | some points =>
    let data := mkCalibrationData now "1.0" "" c.screen_width c.screen_height (some points)
    if data.validateB isoParsable then
      { c with calibration_data := some data, state := CalibrationState.COMPLETED }
    else
      { c with state := CalibrationState.IDLE, calibration_data := none }

/-- First element of a list minimizing f: np.argmin returns the first index
attaining the minimum, so ties keep the earlier element. -/
def firstMinBy (f : CalibrationPoint → ℚ) : List CalibrationPoint → Option CalibrationPoint
  | [] => none
  | a :: rest =>
    match firstMinBy f rest with
    | none => some a
    | some b => if f a ≤ f b then some a else some b

/-- First element of a list maximizing f: np.argmax returns the first index
attaining the maximum, so ties keep the earlier element. -/
def firstMaxBy (f : CalibrationPoint → ℚ) : List CalibrationPoint → Option CalibrationPoint
  | [] => none
  | a :: rest =>
    match firstMaxBy f rest with
    | none => some a
    | some b => if f a < f b then some b else some a

/-- Derived mapping parameters (src/vision/calibrator.py, class GazeMapper). -/
structure GazeMapper where
  screen_width : ℤ
  screen_height : ℤ
  gaze_min_x : ℚ
  gaze_max_x : ℚ
  gaze_min_y : ℚ
  gaze_max_y : ℚ
  screen_at_min_x : ℚ
  screen_at_max_x : ℚ
  screen_at_min_y : ℚ
  screen_at_max_y : ℚ
deriving DecidableEq

/-- GazeMapper.__init__ together with _compute_mapping: per-axis gaze extremes
(np.min / np.max) and the screen coordinate of the first point attaining each
extreme (np.argmin / np.argmax). The value at the argmin is the min, so both
are read off the selected point. The Python constructor first validates the
calibration; theorems about mappers carry that validity as a hypothesis, and
the default point ⟨0,0,0,0,0⟩ is never reached under it since a validated
points list is nonempty. -/
def GazeMapper.ofCalibration (c : CalibrationData) : GazeMapper :=
  let dfl : CalibrationPoint := ⟨0, 0, 0, 0, 0⟩
  let pminx := (firstMinBy CalibrationPoint.gaze_x c.points).getD dfl
  let pmaxx := (firstMaxBy CalibrationPoint.gaze_x c.points).getD dfl
  let pminy := (firstMinBy CalibrationPoint.gaze_y c.points).getD dfl
  let pmaxy := (firstMaxBy CalibrationPoint.gaze_y c.points).getD dfl
  { screen_width := c.screen_width
    screen_height := c.screen_height
    gaze_min_x := pminx.gaze_x
    gaze_max_x := pmaxx.gaze_x
    gaze_min_y := pminy.gaze_y
    gaze_max_y := pmaxy.gaze_y
    screen_at_min_x := pminx.screen_x
    screen_at_max_x := pmaxx.screen_x
    screen_at_min_y := pminy.screen_y
    screen_at_max_y := pmaxy.screen_y }

/-- GazeMapper.map_gaze_to_screen: per-axis linear interpolation between the
recorded extremes, midpoint fallback on a degenerate axis, then np.clip to
[0, dimension - 1]. -/
def GazeMapper.map_gaze_to_screen (m : GazeMapper) (gaze : GazeVector) : ℚ × ℚ :=
  let screen_x :=
    if m.gaze_max_x ≠ m.gaze_min_x then
      let t_x := (gaze.x - m.gaze_min_x) / (m.gaze_max_x - m.gaze_min_x)
      m.screen_at_min_x + t_x * (m.screen_at_max_x - m.screen_at_min_x)
    else (m.screen_width : ℚ) / 2
  let screen_y :=
    if m.gaze_max_y ≠ m.gaze_min_y then
      let t_y := (gaze.y - m.gaze_min_y) / (m.gaze_max_y - m.gaze_min_y)
      m.screen_at_min_y + t_y * (m.screen_at_max_y - m.screen_at_min_y)
    else (m.screen_height : ℚ) / 2
  (npClip screen_x 0 ((m.screen_width : ℚ) - 1),
   npClip screen_y 0 ((m.screen_height : ℚ) - 1))

/-- Gaze configuration fields consumed by the smoother (src/core/config.py,
GazeConfig). -/
structure GazeConfig where
  smoothing_factor : ℚ
  dead_zone_radius : ℚ
  max_velocity : ℚ
  sensitivity : ℚ
deriving DecidableEq

/-- Smoothed gaze position (src/vision/smoothing.py, SmoothedGaze). -/
structure SmoothedGaze where
  x : ℤ
  y : ℤ
  velocity : ℚ
deriving DecidableEq

/-- Smoother instance state (src/vision/smoothing.py, class GazeSmoother).
The two fields _smoothed_x and _smoothed_y are always both None or both set,
so they are modelled as one optional pair. -/
structure GazeSmoother where
  config : GazeConfig
  screen_width : ℤ
  screen_height : ℤ
  smoothed : Option (ℚ × ℚ)
deriving DecidableEq

/-- Dead-zone radius in pixels, int(dead_zone_radius * min(width, height)).
The Python object stores this value and recomputes it on every construction
and reconfiguration, so it is modelled as a derived function. -/
def GazeSmoother.dead_zone_pixels (s : GazeSmoother) : ℤ :=
  pytrunc (s.config.dead_zone_radius * ((min s.screen_width s.screen_height : ℤ) : ℚ))

/-- GazeSmoother.smooth, returning the SmoothedGaze output and the updated
smoother state. The argument `dist` stands for np.sqrt(dx**2 + dy**2), which
is irrational in general; theorems constrain it by dist ≥ 0 and
dist^2 = dx^2 + dy^2. -/
def GazeSmoother.smooth (s : GazeSmoother) (screen_x screen_y dist : ℚ) :
    SmoothedGaze × GazeSmoother :=
  match s.smoothed with
  | none =>
    (⟨pytrunc screen_x, pytrunc screen_y, 0⟩,
     { s with smoothed := some (screen_x, screen_y) })
  | some (sx, sy) =>
    if dist < (s.dead_zone_pixels : ℚ) then
      (⟨pytrunc sx, pytrunc sy, 0⟩, s)
    else
      let dx := (screen_x - sx) * s.config.sensitivity
      let dy := (screen_y - sy) * s.config.sensitivity
      let dist1 := dist * s.config.sensitivity
      let step :=
        if s.config.max_velocity < dist1 then
          let scale := s.config.max_velocity / dist1
          (dx * scale, dy * scale, s.config.max_velocity)
        else (dx, dy, dist1)
      let alpha := s.config.smoothing_factor
      let new_x := npClip (sx + alpha * step.1) 0 ((s.screen_width : ℚ) - 1)
      let new_y := npClip (sy + alpha * step.2.1) 0 ((s.screen_height : ℚ) - 1)
      (⟨pytrunc new_x, pytrunc new_y, step.2.2⟩,
       { s with smoothed := some (new_x, new_y) })

/-- GazeSmoother.reset. -/
def GazeSmoother.reset (s : GazeSmoother) : GazeSmoother :=
  { s with smoothed := none }

lemma npClip_bounds (v lo hi : ℚ) (h : lo ≤ hi) :
    lo ≤ npClip v lo hi ∧ npClip v lo hi ≤ hi := by
  unfold npClip
  exact ⟨le_min (le_max_right v lo) h, min_le_right _ _⟩

lemma npClip_eq_self (v lo hi : ℚ) (h1 : lo ≤ v) (h2 : v ≤ hi) : npClip v lo hi = v := by
  unfold npClip
  rw [max_eq_left h1, min_eq_left h2]

lemma firstMinBy_mem {f : CalibrationPoint → ℚ} :
    ∀ {l : List CalibrationPoint} {a : CalibrationPoint}, firstMinBy f l = some a → a ∈ l := by
  intro l
  induction l with
  | nil => intro a h; simp [firstMinBy] at h
  | cons b rest ih =>
    intro a h
    unfold firstMinBy at h
    split at h
    · simp at h; simp [h]
    · rename_i c heq
      split at h
      · simp at h; simp [h]
      · simp at h
        exact List.mem_cons_of_mem b (ih (h ▸ heq))

lemma firstMaxBy_mem {f : CalibrationPoint → ℚ} :
    ∀ {l : List CalibrationPoint} {a : CalibrationPoint}, firstMaxBy f l = some a → a ∈ l := by
  intro l
  induction l with
  | nil => intro a h; simp [firstMaxBy] at h
  | cons b rest ih =>
    intro a h
    unfold firstMaxBy at h
    split at h
    · simp at h; simp [h]
    · rename_i c heq
      split at h
      · simp at h
        exact List.mem_cons_of_mem b (ih (h ▸ heq))
      · simp at h; simp [h]

lemma firstMinBy_isSome {f : CalibrationPoint → ℚ} {l : List CalibrationPoint}
    (h : l ≠ []) : ∃ a, firstMinBy f l = some a := by
  cases l with
  | nil => exact absurd rfl h
  | cons b rest =>
    unfold firstMinBy
    cases hr : firstMinBy f rest with
    | none => exact ⟨b, rfl⟩
    | some c =>
      by_cases hc : f b ≤ f c
      · exact ⟨b, by simp [hc]⟩
      · exact ⟨c, by simp [hc]⟩

lemma firstMaxBy_isSome {f : CalibrationPoint → ℚ} {l : List CalibrationPoint}
    (h : l ≠ []) : ∃ a, firstMaxBy f l = some a := by
  cases l with
  | nil => exact absurd rfl h
  | cons b rest =>
    unfold firstMaxBy
    cases hr : firstMaxBy f rest with
    | none => exact ⟨b, rfl⟩
    | some c =>
      by_cases hc : f b < f c
      · exact ⟨c, by simp [hc]⟩
      · exact ⟨b, by simp [hc]⟩

lemma validateB_dims {isoParsable : String → Bool} {d : CalibrationData}
    (h : d.validateB isoParsable = true) :
    0 < d.screen_width ∧ 0 < d.screen_height ∧ 3 ≤ d.points.length := by
  unfold CalibrationData.validateB at h
  simp only [Bool.and_eq_true, decide_eq_true_eq] at h
  tauto

/-- C1. For every Mapper constructed from valid CalibrationData and every query
GazeVector, however extreme its components, map_gaze_to_screen returns a screen
point with x in [0, screen_width - 1] and y in [0, screen_height - 1]. -/
theorem map_gaze_to_screen_within_bounds (isoParsable : String → Bool)
    (c : CalibrationData) (hv : c.validateB isoParsable = true) (g : GazeVector) :
    0 ≤ ((GazeMapper.ofCalibration c).map_gaze_to_screen g).1 ∧
    ((GazeMapper.ofCalibration c).map_gaze_to_screen g).1 ≤ (c.screen_width : ℚ) - 1 ∧
    0 ≤ ((GazeMapper.ofCalibration c).map_gaze_to_screen g).2 ∧
    ((GazeMapper.ofCalibration c).map_gaze_to_screen g).2 ≤ (c.screen_height : ℚ) - 1 := by
  obtain ⟨hw, hh, -⟩ := validateB_dims hv
  have hw1 : (1 : ℤ) ≤ c.screen_width := hw
  have hh1 : (1 : ℤ) ≤ c.screen_height := hh
  have hwq : (1 : ℚ) ≤ (c.screen_width : ℚ) := by exact_mod_cast hw1
  have hhq : (1 : ℚ) ≤ (c.screen_height : ℚ) := by exact_mod_cast hh1
  have hwq' : (0 : ℚ) ≤ (c.screen_width : ℚ) - 1 := by linarith
  have hhq' : (0 : ℚ) ≤ (c.screen_height : ℚ) - 1 := by linarith
  dsimp only [GazeMapper.map_gaze_to_screen, GazeMapper.ofCalibration]
  exact ⟨(npClip_bounds _ _ _ hwq').1, (npClip_bounds _ _ _ hwq').2,
         (npClip_bounds _ _ _ hhq').1, (npClip_bounds _ _ _ hhq').2⟩

/-- Five-point calibration of the test fixture
(src/tests/test_mapping_math.py, simple_calibration): a 1920x1080 screen with
center, left, right, top, bottom points. -/
def simpleCalibration : CalibrationData :=
  { version := "1.0"
    timestamp := "2024-01-01T00:00:00"
    screen_width := 1920
    screen_height := 1080
    points :=
      [⟨960, 540, 0, 0, 60⟩, ⟨192, 540, -4/5, 0, 60⟩, ⟨1728, 540, 4/5, 0, 60⟩,
       ⟨960, 108, 0, -4/5, 60⟩, ⟨960, 972, 0, 4/5, 60⟩] }

theorem map_gaze_to_screen_within_bounds_witness :
    CalibrationData.validateB (fun _ => true) simpleCalibration = true ∧
    (0 ≤ ((GazeMapper.ofCalibration simpleCalibration).map_gaze_to_screen ⟨5, -5, 1⟩).1 ∧
     ((GazeMapper.ofCalibration simpleCalibration).map_gaze_to_screen ⟨5, -5, 1⟩).1 ≤
       (simpleCalibration.screen_width : ℚ) - 1 ∧
     0 ≤ ((GazeMapper.ofCalibration simpleCalibration).map_gaze_to_screen ⟨5, -5, 1⟩).2 ∧
     ((GazeMapper.ofCalibration simpleCalibration).map_gaze_to_screen ⟨5, -5, 1⟩).2 ≤
       (simpleCalibration.screen_height : ℚ) - 1) :=
  ⟨by norm_num [CalibrationData.validateB, CalibrationPoint.validateB, simpleCalibration]; decide,
   map_gaze_to_screen_within_bounds (fun _ => true) simpleCalibration
     (by norm_num [CalibrationData.validateB, CalibrationPoint.validateB, simpleCalibration]; decide)
     ⟨5, -5, 1⟩⟩

/-- C8. For the Mapper built from the five-point test calibration with gaze_x
extremes -0.8 and 0.8 mapped to screen_x 192 and 1728, the monotonically
increasing query sequence gaze_x = -0.8, -0.4, 0, 0.4, 0.8 produces a
non-decreasing sequence of screen_x outputs. -/
theorem mapper_monotone_concrete :
    ((GazeMapper.ofCalibration simpleCalibration).map_gaze_to_screen ⟨-4/5, 0, 9/10⟩).1 ≤
      ((GazeMapper.ofCalibration simpleCalibration).map_gaze_to_screen ⟨-2/5, 0, 9/10⟩).1 ∧
    ((GazeMapper.ofCalibration simpleCalibration).map_gaze_to_screen ⟨-2/5, 0, 9/10⟩).1 ≤
      ((GazeMapper.ofCalibration simpleCalibration).map_gaze_to_screen ⟨0, 0, 9/10⟩).1 ∧
    ((GazeMapper.ofCalibration simpleCalibration).map_gaze_to_screen ⟨0, 0, 9/10⟩).1 ≤
      ((GazeMapper.ofCalibration simpleCalibration).map_gaze_to_screen ⟨2/5, 0, 9/10⟩).1 ∧
    ((GazeMapper.ofCalibration simpleCalibration).map_gaze_to_screen ⟨2/5, 0, 9/10⟩).1 ≤
      ((GazeMapper.ofCalibration simpleCalibration).map_gaze_to_screen ⟨4/5, 0, 9/10⟩).1 := by
  norm_num [GazeMapper.ofCalibration, GazeMapper.map_gaze_to_screen, firstMinBy, firstMaxBy,
    simpleCalibration, npClip, min_def, max_def]

/-- C2 (amended). For every valid calibration whose points all share the same
gaze value on an axis, the mapper records equal gaze extremes on that axis, so
the interpolation branch (the division by gaze_max - gaze_min) is never taken;
the output on that axis is the screen midpoint clamped to [0, dimension - 1],
which equals the midpoint dimension / 2 exactly whenever dimension ≥ 2. -/
theorem degenerate_axis_midpoint_amended (isoParsable : String → Bool)
    (c : CalibrationData) (hv : c.validateB isoParsable = true) :
    (∀ gx : ℚ, (∀ p ∈ c.points, p.gaze_x = gx) →
      (GazeMapper.ofCalibration c).gaze_max_x = (GazeMapper.ofCalibration c).gaze_min_x ∧
      (2 ≤ c.screen_width → ∀ g : GazeVector,
        ((GazeMapper.ofCalibration c).map_gaze_to_screen g).1 = (c.screen_width : ℚ) / 2)) ∧
    (∀ gy : ℚ, (∀ p ∈ c.points, p.gaze_y = gy) →
      (GazeMapper.ofCalibration c).gaze_max_y = (GazeMapper.ofCalibration c).gaze_min_y ∧
      (2 ≤ c.screen_height → ∀ g : GazeVector,
        ((GazeMapper.ofCalibration c).map_gaze_to_screen g).2 = (c.screen_height : ℚ) / 2)) := by
  have hlen := (validateB_dims hv).2.2
  have hne : c.points ≠ [] := by
    intro h
    rw [h] at hlen
    simp at hlen
  constructor
  · intro gx hall
    obtain ⟨a, ha⟩ := firstMinBy_isSome (f := CalibrationPoint.gaze_x) hne
    obtain ⟨b, hb⟩ := firstMaxBy_isSome (f := CalibrationPoint.gaze_x) hne
    have hmin : (GazeMapper.ofCalibration c).gaze_min_x = gx := by
      simp only [GazeMapper.ofCalibration, ha, Option.getD_some]
      exact hall a (firstMinBy_mem ha)
    have hmax : (GazeMapper.ofCalibration c).gaze_max_x = gx := by
      simp only [GazeMapper.ofCalibration, hb, Option.getD_some]
      exact hall b (firstMaxBy_mem hb)
    refine ⟨hmax.trans hmin.symm, ?_⟩
    intro h2 g
    have h2q : (2 : ℚ) ≤ ((GazeMapper.ofCalibration c).screen_width : ℚ) := by
      exact_mod_cast h2
    have hcond : ¬((GazeMapper.ofCalibration c).gaze_max_x ≠
        (GazeMapper.ofCalibration c).gaze_min_x) := by
      rw [hmax, hmin]
      simp
    show ((GazeMapper.ofCalibration c).map_gaze_to_screen g).1 = _
    unfold GazeMapper.map_gaze_to_screen
    dsimp only
    rw [if_neg hcond]
    exact npClip_eq_self _ _ _ (by linarith) (by linarith)
  · intro gy hall
    obtain ⟨a, ha⟩ := firstMinBy_isSome (f := CalibrationPoint.gaze_y) hne
    obtain ⟨b, hb⟩ := firstMaxBy_isSome (f := CalibrationPoint.gaze_y) hne
    have hmin : (GazeMapper.ofCalibration c).gaze_min_y = gy := by
      simp only [GazeMapper.ofCalibration, ha, Option.getD_some]
      exact hall a (firstMinBy_mem ha)
    have hmax : (GazeMapper.ofCalibration c).gaze_max_y = gy := by
      simp only [GazeMapper.ofCalibration, hb, Option.getD_some]
      exact hall b (firstMaxBy_mem hb)
    refine ⟨hmax.trans hmin.symm, ?_⟩
    intro h2 g
    have h2q : (2 : ℚ) ≤ ((GazeMapper.ofCalibration c).screen_height : ℚ) := by
      exact_mod_cast h2
    have hcond : ¬((GazeMapper.ofCalibration c).gaze_max_y ≠
        (GazeMapper.ofCalibration c).gaze_min_y) := by
      rw [hmax, hmin]
      simp
    show ((GazeMapper.ofCalibration c).map_gaze_to_screen g).2 = _
    unfold GazeMapper.map_gaze_to_screen
    dsimp only
    rw [if_neg hcond]
    exact npClip_eq_self _ _ _ (by linarith) (by linarith)

/-- Valid calibration on a width-1 screen whose points all share gaze_x. -/
def degenerateCalib : CalibrationData :=
  { version := "1.0"
    timestamp := "2024-01-01T00:00:00"
    screen_width := 1
    screen_height := 1080
    points := [⟨0, 100, 1/2, -1/2, 10⟩, ⟨0, 500, 1/2, 0, 10⟩, ⟨0, 900, 1/2, 1/2, 10⟩] }

/-- C2 (counterexample). A valid calibration with screen_width = 1 whose
points all share gaze_x = 1/2: the claimed output screen_width / 2 = 1/2 is
not produced; the final clamp to [0, 0] yields 0 instead. -/
theorem degenerate_axis_midpoint_counterexample :
    CalibrationData.validateB (fun _ => true) degenerateCalib = true ∧
    degenerateCalib.points.all (fun p => decide (p.gaze_x = 1/2)) = true ∧
    ((GazeMapper.ofCalibration degenerateCalib).map_gaze_to_screen ⟨0, 0, 1⟩).1 = 0 ∧
    ¬(((GazeMapper.ofCalibration degenerateCalib).map_gaze_to_screen ⟨0, 0, 1⟩).1 =
        (degenerateCalib.screen_width : ℚ) / 2) := by
  refine ⟨?_, ?_, ?_, ?_⟩
  · norm_num [CalibrationData.validateB, CalibrationPoint.validateB, degenerateCalib]
    decide
  · norm_num [degenerateCalib]
  · norm_num [GazeMapper.ofCalibration, GazeMapper.map_gaze_to_screen, firstMinBy,
      firstMaxBy, degenerateCalib, npClip, min_def, max_def]
  · norm_num [GazeMapper.ofCalibration, GazeMapper.map_gaze_to_screen, firstMinBy,
      firstMaxBy, degenerateCalib, npClip, min_def, max_def]

/-- Valid 1920x1080 calibration whose points all share gaze_x = 1/2. -/
def sharedXCalib : CalibrationData :=
  { version := "1.0"
    timestamp := "2024-01-01T00:00:00"
    screen_width := 1920
    screen_height := 1080
    points := [⟨100, 100, 1/2, -1/2, 10⟩, ⟨200, 500, 1/2, 0, 10⟩, ⟨300, 900, 1/2, 1/2, 10⟩] }

theorem degenerate_axis_midpoint_amended_witness :
    ((GazeMapper.ofCalibration sharedXCalib).map_gaze_to_screen ⟨7, 3, 1⟩).1 = 960 := by
  have h := ((degenerate_axis_midpoint_amended (fun _ => true) sharedXCalib
      (by norm_num [CalibrationData.validateB, CalibrationPoint.validateB, sharedXCalib]
          ; decide)).1 (1/2)
      (by intro p hp; fin_cases hp <;> norm_num [sharedXCalib])).2
    (by decide) ⟨7, 3, 1⟩
  rw [h]
  norm_num [sharedXCalib]

lemma buildPoints_eq_none {trim : ℚ} {ts : List CalibrationTarget}
    (h : ∃ t ∈ ts, t.compute_average trim = none) : buildPoints trim ts = none := by
  induction ts with
  | nil => simp at h
  | cons t rest ih =>
    obtain ⟨u, hu, hav⟩ := h
    rcases List.mem_cons.mp hu with rfl | hmem
    · unfold buildPoints
      rw [hav]
    · unfold buildPoints
      cases hc : t.compute_average trim with
      | none => rfl
      | some p =>
        obtain ⟨gx, gy⟩ := p
        simp [hc, ih ⟨u, hmem, hav⟩]

/-- C3 (amended). If any target's aggregation yields no numeric result, the
finalization ends in IDLE with no CalibrationData; if every target aggregates
to a numeric pair, the CalibrationData assembled with the current screen
dimensions is validated: when validation passes the machine reaches COMPLETED
holding exactly that data, and when validation fails (for example an averaged
gaze value outside [-2, 2]) the machine likewise reverts to IDLE holding no
data. -/
theorem finalize_calibration_amended (isoParsable : String → Bool) (now : String)
    (c : Calibrator) :
    ((∃ t ∈ c.targets, t.compute_average c.config.outlier_trim_percent = none) →
      (c.finalize_calibration isoParsable now).state = CalibrationState.IDLE ∧
      (c.finalize_calibration isoParsable now).calibration_data = none) ∧
    (∀ points, buildPoints c.config.outlier_trim_percent c.targets = some points →
      ((mkCalibrationData now "1.0" "" c.screen_width c.screen_height
          (some points)).validateB isoParsable = true →
        (c.finalize_calibration isoParsable now).state = CalibrationState.COMPLETED ∧
        (c.finalize_calibration isoParsable now).calibration_data =
          some (mkCalibrationData now "1.0" "" c.screen_width c.screen_height (some points)) ∧
        (mkCalibrationData now "1.0" "" c.screen_width c.screen_height
          (some points)).screen_width = c.screen_width ∧
        (mkCalibrationData now "1.0" "" c.screen_width c.screen_height
          (some points)).screen_height = c.screen_height) ∧
      ((mkCalibrationData now "1.0" "" c.screen_width c.screen_height
          (some points)).validateB isoParsable = false →
        (c.finalize_calibration isoParsable now).state = CalibrationState.IDLE ∧
        (c.finalize_calibration isoParsable now).calibration_data = none)) := by
  constructor
  · intro h
    have hb := buildPoints_eq_none h
    unfold Calibrator.finalize_calibration
    rw [hb]
    exact ⟨rfl, rfl⟩
  · intro points hp
    constructor
    · intro hval
      unfold Calibrator.finalize_calibration
      rw [hp]
      simp only [hval]
      exact ⟨rfl, rfl, rfl, rfl⟩
    · intro hval
      unfold Calibrator.finalize_calibration
      rw [hp]
      simp only [hval]
      exact ⟨rfl, rfl⟩

/-- Ten samples of the out-of-range gaze (5, 5). -/
def badSamples : List GazeVector :=
  [⟨5, 5, 1⟩, ⟨5, 5, 1⟩, ⟨5, 5, 1⟩, ⟨5, 5, 1⟩, ⟨5, 5, 1⟩,
   ⟨5, 5, 1⟩, ⟨5, 5, 1⟩, ⟨5, 5, 1⟩, ⟨5, 5, 1⟩, ⟨5, 5, 1⟩]

lemma compute_average_badSamples (i : ℤ) (sx sy : ℚ) :
    CalibrationTarget.compute_average ⟨i, sx, sy, badSamples⟩ (3/20) = some (5, 5) := by
  norm_num [CalibrationTarget.compute_average, trim_mean, pytrunc, pysorted, insertSorted,
    badSamples]

/-- Three targets, each holding ten samples of the out-of-range gaze (5, 5). -/
def badTargets : List CalibrationTarget :=
  [⟨0, 100, 100, badSamples⟩, ⟨1, 200, 200, badSamples⟩, ⟨2, 300, 300, badSamples⟩]

/-- Calibrator about to finalize the badTargets run. -/
def badCalibrator : Calibrator :=
  { config := ⟨90, [], 3/20⟩
    screen_width := 1920
    screen_height := 1080
    state := CalibrationState.COLLECTING
    current_target_index := 3
    targets := badTargets
    calibration_data := none }

lemma buildPoints_badTargets :
    buildPoints (3/20) badTargets =
      some [⟨100, 100, 5, 5, 10⟩, ⟨200, 200, 5, 5, 10⟩, ⟨300, 300, 5, 5, 10⟩] := by
  simp [buildPoints, badTargets, compute_average_badSamples]
  norm_num [badSamples]

/-- C3 (counterexample). Every target aggregates successfully to the numeric
average (5, 5), yet finalization does not reach COMPLETED and produces no
CalibrationData: the assembled data fails validation (gaze outside [-2, 2])
and the machine reverts to IDLE. -/
theorem finalize_validation_failure_counterexample :
    badCalibrator.targets.all
      (fun t => (t.compute_average badCalibrator.config.outlier_trim_percent).isSome) = true ∧
    (badCalibrator.finalize_calibration (fun _ => true) "2024-01-01T00:00:00").state =
      CalibrationState.IDLE ∧
    (badCalibrator.finalize_calibration (fun _ => true) "2024-01-01T00:00:00").calibration_data =
      none := by
  have hfin : badCalibrator.finalize_calibration (fun _ => true) "2024-01-01T00:00:00" =
      { badCalibrator with state := CalibrationState.IDLE, calibration_data := none } := by
    unfold Calibrator.finalize_calibration
    have h1 : buildPoints badCalibrator.config.outlier_trim_percent badCalibrator.targets =
        some [⟨100, 100, 5, 5, 10⟩, ⟨200, 200, 5, 5, 10⟩, ⟨300, 300, 5, 5, 10⟩] :=
      buildPoints_badTargets
    rw [h1]
    norm_num [mkCalibrationData, CalibrationData.validateB, CalibrationPoint.validateB]
  refine ⟨?_, ?_, ?_⟩
  · simp [badCalibrator, badTargets, compute_average_badSamples]
  · rw [hfin]
  · rw [hfin]

/-- Calibrator holding a single target that never received samples. -/
def emptyTargetCalibrator : Calibrator :=
  { config := ⟨90, [], 3/20⟩
    screen_width := 1920
    screen_height := 1080
    state := CalibrationState.COLLECTING
    current_target_index := 1
    targets := [⟨0, 960, 540, []⟩]
    calibration_data := none }

theorem finalize_calibration_amended_witness :
    (emptyTargetCalibrator.finalize_calibration (fun _ => true) "2024-01-01T00:00:00").state =
      CalibrationState.IDLE ∧
    (emptyTargetCalibrator.finalize_calibration (fun _ => true)
      "2024-01-01T00:00:00").calibration_data = none :=
  (finalize_calibration_amended (fun _ => true) "2024-01-01T00:00:00"
    emptyTargetCalibrator).1
    ⟨⟨0, 960, 540, []⟩, by simp [emptyTargetCalibrator],
     by simp [CalibrationTarget.compute_average]⟩

/-- C4 (amended). After the first call, a raw position whose Euclidean
distance from the current smoothed position is smaller than the stored
pixel threshold int(dead_zone_radius * min(screen_width, screen_height)) —
the configured fraction of the screen floored to whole pixels — produces no
update: smooth returns the unchanged smoothed position with velocity 0 and
leaves the state untouched. -/
theorem dead_zone_no_update_amended (s : GazeSmoother) (sx sy rx ry dist : ℚ)
    (hs : s.smoothed = some (sx, sy))
    (hd2 : dist ^ 2 = (rx - sx) ^ 2 + (ry - sy) ^ 2) (hd0 : 0 ≤ dist)
    (hlt : dist < (s.dead_zone_pixels : ℚ)) :
    s.smooth rx ry dist = (⟨pytrunc sx, pytrunc sy, 0⟩, s) := by
  unfold GazeSmoother.smooth
  rw [hs]
  exact if_pos hlt

/-- Smoother with valid configuration (alpha 1, dead zone fraction 0.01,
max velocity 1000, sensitivity 1) on a 1920x1080 screen, position (0, 0). -/
def s4smoother : GazeSmoother := ⟨⟨1, 1/100, 1000, 1⟩, 1920, 1080, some (0, 0)⟩

/-- C4 (counterexample). The displacement 10.4 is smaller than
dead_zone_radius * min(width, height) = 10.8, so the claim demands no update;
the code compares against the floored threshold int(10.8) = 10 and does
update: the returned velocity is 10.4 and the stored position moves. -/
theorem dead_zone_threshold_counterexample :
    (52/5 : ℚ) < s4smoother.config.dead_zone_radius *
      ((min s4smoother.screen_width s4smoother.screen_height : ℤ) : ℚ) ∧
    (52/5 : ℚ) ^ 2 = (52/5 - 0) ^ 2 + ((0 : ℚ) - 0) ^ 2 ∧
    (s4smoother.smooth (52/5) 0 (52/5)).1.velocity = 52/5 ∧
    ¬((s4smoother.smooth (52/5) 0 (52/5)).1.velocity = 0) ∧
    (s4smoother.smooth (52/5) 0 (52/5)).2.smoothed = some (52/5, 0) ∧
    ¬((s4smoother.smooth (52/5) 0 (52/5)).2 = s4smoother) := by
  norm_num [s4smoother, GazeSmoother.smooth, GazeSmoother.dead_zone_pixels, pytrunc,
    npClip, min_def, max_def]

/-- Smoother with the default configuration (alpha 0.2, dead zone fraction
0.035, max velocity 35, sensitivity 0.8) on a 1920x1080 screen, position
(0, 0). -/
def defaultSmoother : GazeSmoother := ⟨⟨1/5, 7/200, 35, 4/5⟩, 1920, 1080, some (0, 0)⟩

theorem dead_zone_no_update_amended_witness :
    (5 : ℚ) ^ 2 = (3 - 0) ^ 2 + (4 - 0) ^ 2 ∧
    defaultSmoother.smooth 3 4 5 = (⟨pytrunc 0, pytrunc 0, 0⟩, defaultSmoother) :=
  ⟨by norm_num,
   dead_zone_no_update_amended defaultSmoother 0 0 3 4 5 rfl (by norm_num) (by norm_num)
     (by norm_num [GazeSmoother.dead_zone_pixels, defaultSmoother, pytrunc, min_def])⟩

lemma npClip_sub_sq_le (v lo hi p : ℚ) (h1 : lo ≤ p) (h2 : p ≤ hi) :
    (npClip v lo hi - p) ^ 2 ≤ (v - p) ^ 2 := by
  unfold npClip
  rcases le_total v lo with hv | hv
  · rw [max_eq_right hv, min_eq_left (h1.trans h2)]
    nlinarith
  · rcases le_total v hi with hv2 | hv2
    · rw [max_eq_left hv, min_eq_left hv2]
    · rw [max_eq_left hv, min_eq_right hv2]
      nlinarith

lemma smooth_clamp_branch (s : GazeSmoother) (sx sy rx ry dist : ℚ)
    (hs : s.smoothed = some (sx, sy))
    (hdz : (s.dead_zone_pixels : ℚ) ≤ dist)
    (hclamp : s.config.max_velocity < dist * s.config.sensitivity) :
    s.smooth rx ry dist =
      (⟨pytrunc (npClip (sx + s.config.smoothing_factor * ((rx - sx) * s.config.sensitivity *
          (s.config.max_velocity / (dist * s.config.sensitivity)))) 0 ((s.screen_width : ℚ) - 1)),
        pytrunc (npClip (sy + s.config.smoothing_factor * ((ry - sy) * s.config.sensitivity *
          (s.config.max_velocity / (dist * s.config.sensitivity)))) 0 ((s.screen_height : ℚ) - 1)),
        s.config.max_velocity⟩,
       { s with smoothed := some (
          npClip (sx + s.config.smoothing_factor * ((rx - sx) * s.config.sensitivity *
            (s.config.max_velocity / (dist * s.config.sensitivity)))) 0 ((s.screen_width : ℚ) - 1),
          npClip (sy + s.config.smoothing_factor * ((ry - sy) * s.config.sensitivity *
            (s.config.max_velocity / (dist * s.config.sensitivity)))) 0 ((s.screen_height : ℚ) - 1)) }) := by
  unfold GazeSmoother.smooth
  rw [hs]
  dsimp only
  rw [if_neg (not_lt.mpr hdz), if_pos hclamp]

/-- C5 (amended). With an established smoothed position lying inside the
screen bounds, a raw input whose sensitivity-scaled displacement exceeds
max_velocity yields an updated internal smoothed position of the form
clip(prior + c * raw_delta) with c = alpha * max_velocity / dist ≥ 0: the
displacement actually applied is the raw delta scaled by a single nonnegative
factor (same direction), clipped to the screen, and its magnitude is at most
max_velocity (exactly alpha * max_velocity when the clip does not bind); the
returned integer coordinates are these exact values truncated. -/
theorem velocity_clamp_amended (s : GazeSmoother) (sx sy rx ry dist : ℚ)
    (hs : s.smoothed = some (sx, sy))
    (hd2 : dist ^ 2 = (rx - sx) ^ 2 + (ry - sy) ^ 2) (hd0 : 0 ≤ dist)
    (hdz : (s.dead_zone_pixels : ℚ) ≤ dist)
    (halpha0 : 0 ≤ s.config.smoothing_factor) (halpha1 : s.config.smoothing_factor ≤ 1)
    (hsens : 0 < s.config.sensitivity)
    (hmv0 : 0 ≤ s.config.max_velocity)
    (hclamp : s.config.max_velocity < dist * s.config.sensitivity)
    (hsx0 : 0 ≤ sx) (hsxW : sx ≤ (s.screen_width : ℚ) - 1)
    (hsy0 : 0 ≤ sy) (hsyH : sy ≤ (s.screen_height : ℚ) - 1) :
    (s.smooth rx ry dist).2.smoothed = some (
      npClip (sx + s.config.smoothing_factor * s.config.max_velocity / dist * (rx - sx)) 0
        ((s.screen_width : ℚ) - 1),
      npClip (sy + s.config.smoothing_factor * s.config.max_velocity / dist * (ry - sy)) 0
        ((s.screen_height : ℚ) - 1)) ∧
    (npClip (sx + s.config.smoothing_factor * s.config.max_velocity / dist * (rx - sx)) 0
        ((s.screen_width : ℚ) - 1) - sx) ^ 2 +
      (npClip (sy + s.config.smoothing_factor * s.config.max_velocity / dist * (ry - sy)) 0
        ((s.screen_height : ℚ) - 1) - sy) ^ 2 ≤ s.config.max_velocity ^ 2 ∧
    0 ≤ s.config.smoothing_factor * s.config.max_velocity / dist := by
  have hdistpos : 0 < dist := by nlinarith
  have hdist' : dist ≠ 0 := ne_of_gt hdistpos
  have hsens' : s.config.sensitivity ≠ 0 := ne_of_gt hsens
  have hargx : sx + s.config.smoothing_factor * ((rx - sx) * s.config.sensitivity *
      (s.config.max_velocity / (dist * s.config.sensitivity))) =
      sx + s.config.smoothing_factor * s.config.max_velocity / dist * (rx - sx) := by
    field_simp
    ring
  have hargy : sy + s.config.smoothing_factor * ((ry - sy) * s.config.sensitivity *
      (s.config.max_velocity / (dist * s.config.sensitivity))) =
      sy + s.config.smoothing_factor * s.config.max_velocity / dist * (ry - sy) := by
    field_simp
    ring
  refine ⟨?_, ?_, ?_⟩
  · rw [smooth_clamp_branch s sx sy rx ry dist hs hdz hclamp]
    dsimp only
    rw [hargx, hargy]
  · have hx := npClip_sub_sq_le
      (sx + s.config.smoothing_factor * s.config.max_velocity / dist * (rx - sx)) 0
      ((s.screen_width : ℚ) - 1) sx hsx0 hsxW
    have hy := npClip_sub_sq_le
      (sy + s.config.smoothing_factor * s.config.max_velocity / dist * (ry - sy)) 0
      ((s.screen_height : ℚ) - 1) sy hsy0 hsyH
    have hpre : (sx + s.config.smoothing_factor * s.config.max_velocity / dist * (rx - sx)
        - sx) ^ 2 +
        (sy + s.config.smoothing_factor * s.config.max_velocity / dist * (ry - sy) - sy) ^ 2 =
        (s.config.smoothing_factor * s.config.max_velocity) ^ 2 / dist ^ 2 *
          ((rx - sx) ^ 2 + (ry - sy) ^ 2) := by
      field_simp
      ring
    have hmag : (sx + s.config.smoothing_factor * s.config.max_velocity / dist * (rx - sx)
        - sx) ^ 2 +
        (sy + s.config.smoothing_factor * s.config.max_velocity / dist * (ry - sy) - sy) ^ 2 =
        (s.config.smoothing_factor * s.config.max_velocity) ^ 2 := by
      rw [hpre, ← hd2]
      field_simp
    have h1 : s.config.smoothing_factor ^ 2 ≤ 1 := by nlinarith
    have halpha : (s.config.smoothing_factor * s.config.max_velocity) ^ 2 ≤
        s.config.max_velocity ^ 2 := by
      calc (s.config.smoothing_factor * s.config.max_velocity) ^ 2
          = s.config.smoothing_factor ^ 2 * s.config.max_velocity ^ 2 := by ring
        _ ≤ 1 * s.config.max_velocity ^ 2 := mul_le_mul_of_nonneg_right h1 (sq_nonneg _)
        _ = s.config.max_velocity ^ 2 := one_mul _
    linarith [hx, hy]
  · exact div_nonneg (mul_nonneg halpha0 hmv0) (le_of_lt hdistpos)

/-- Smoother with valid configuration (alpha 1, dead zone fraction 0,
max velocity 5, sensitivity 1) on a 1920x1080 screen, no position yet. -/
def s5smoother : GazeSmoother := ⟨⟨1, 0, 5, 1⟩, 1920, 1080, none⟩

/-- C5 (counterexample). The first call adopts the off-screen position
(-100, 0) unclamped; the next call jumps further left to (-200, 0), a raw
delta of -100 whose magnitude exceeds max_velocity = 5. The final screen
clamp snaps the position to (0, 0): the resulting displacement from the
prior smoothed position is +100 — more than max_velocity — and points in
the direction opposite to the raw delta. -/
theorem velocity_clamp_counterexample :
    (s5smoother.smooth (-100) 0 0).2.smoothed = some (-100, 0) ∧
    (100 : ℚ) ^ 2 = ((-200 : ℚ) - (-100)) ^ 2 + ((0 : ℚ) - 0) ^ 2 ∧
    s5smoother.config.max_velocity = 5 ∧
    (((s5smoother.smooth (-100) 0 0).2).smooth (-200) 0 100).2.smoothed = some (0, 0) ∧
    ¬(((0 : ℚ) - (-100)) ^ 2 + ((0 : ℚ) - 0) ^ 2 ≤ s5smoother.config.max_velocity ^ 2) ∧
    ((-200 : ℚ) - (-100) < 0 ∧ (0 : ℚ) - (-100) > 0) := by
  have h1 : (s5smoother.smooth (-100) 0 0).2 =
      { s5smoother with smoothed := some (-100, 0) } := by
    norm_num [s5smoother, GazeSmoother.smooth]
  refine ⟨by rw [h1], by norm_num, rfl, ?_, by norm_num [s5smoother], by norm_num⟩
  rw [h1]
  norm_num [s5smoother, GazeSmoother.smooth, GazeSmoother.dead_zone_pixels, pytrunc,
    npClip, min_def, max_def]

/-- Smoother with valid configuration (alpha 1/2, dead zone fraction 0.01,
max velocity 5, sensitivity 1) on a 1920x1080 screen, position (100, 100). -/
def s5witnessSmoother : GazeSmoother := ⟨⟨1/2, 1/100, 5, 1⟩, 1920, 1080, some (100, 100)⟩

theorem velocity_clamp_amended_witness :
    (50 : ℚ) ^ 2 = ((130 : ℚ) - 100) ^ 2 + ((140 : ℚ) - 100) ^ 2 ∧
    (s5witnessSmoother.smooth 130 140 50).2.smoothed = some (203/2, 102) := by
  refine ⟨by norm_num, ?_⟩
  have h := velocity_clamp_amended s5witnessSmoother 100 100 130 140 50 rfl
    (by norm_num) (by norm_num)
    (by norm_num [GazeSmoother.dead_zone_pixels, s5witnessSmoother, pytrunc, min_def])
    (by norm_num [s5witnessSmoother]) (by norm_num [s5witnessSmoother])
    (by norm_num [s5witnessSmoother]) (by norm_num [s5witnessSmoother])
    (by norm_num [s5witnessSmoother]) (by norm_num [s5witnessSmoother])
    (by norm_num [s5witnessSmoother]) (by norm_num [s5witnessSmoother])
    (by norm_num [s5witnessSmoother])
  rw [h.1]
  norm_num [s5witnessSmoother, npClip, min_def, max_def]

lemma length_insertSorted (a : ℚ) (l : List ℚ) :
    (insertSorted a l).length = l.length + 1 := by
  induction l with
  | nil => rfl
  | cons b u ih =>
    unfold insertSorted
    split
    · simp
    · simp [ih]

lemma length_pysorted (l : List ℚ) : (pysorted l).length = l.length := by
  induction l with
  | nil => rfl
  | cons a u ih => simp [pysorted, length_insertSorted, ih]

lemma trim_mean_some (l : List ℚ) (t : ℚ) (h0 : 0 ≤ t) (h1 : t < 1/2) (hne : l ≠ []) :
    ∃ q, trim_mean l t = some q := by
  have hnpos : 0 < l.length := List.length_pos.mpr hne
  have hlq : (0 : ℚ) < (l.length : ℚ) := by exact_mod_cast hnpos
  have htn : (0 : ℚ) ≤ t * (l.length : ℚ) := mul_nonneg h0 (le_of_lt hlq)
  have hpt : pytrunc (t * (l.length : ℚ)) = ⌊t * (l.length : ℚ)⌋ := if_pos htn
  have hfl0 : 0 ≤ ⌊t * (l.length : ℚ)⌋ := Int.floor_nonneg.mpr htn
  have hkZ : ((pytrunc (t * (l.length : ℚ))).toNat : ℤ) = ⌊t * (l.length : ℚ)⌋ := by
    rw [hpt]
    exact Int.toNat_of_nonneg hfl0
  have h2k : 2 * (pytrunc (t * (l.length : ℚ))).toNat < l.length := by
    have hflq : (⌊t * (l.length : ℚ)⌋ : ℚ) < (l.length : ℚ) / 2 := by
      have hh : t * (l.length : ℚ) < (l.length : ℚ) / 2 := by nlinarith
      exact lt_of_le_of_lt (Int.floor_le _) hh
    have hkq : (((pytrunc (t * (l.length : ℚ))).toNat : ℕ) : ℚ) < (l.length : ℚ) / 2 := by
      have : (((pytrunc (t * (l.length : ℚ))).toNat : ℤ) : ℚ) = (⌊t * (l.length : ℚ)⌋ : ℚ) := by
        exact_mod_cast hkZ
      push_cast at this ⊢
      rw [this]
      exact hflq
    have h2q : ((2 * (pytrunc (t * (l.length : ℚ))).toNat : ℕ) : ℚ) < (l.length : ℚ) := by
      push_cast
      linarith
    exact_mod_cast h2q
  have hml : (((pysorted l).drop (pytrunc (t * (l.length : ℚ))).toNat).take
      (l.length - (pytrunc (t * (l.length : ℚ))).toNat -
        (pytrunc (t * (l.length : ℚ))).toNat)).length =
      l.length - (pytrunc (t * (l.length : ℚ))).toNat -
        (pytrunc (t * (l.length : ℚ))).toNat := by
    rw [List.length_take, List.length_drop, length_pysorted]
    omega
  unfold trim_mean
  dsimp only
  rw [if_neg (by omega : ¬((pytrunc (t * (l.length : ℚ))).toNat >
    l.length - (pytrunc (t * (l.length : ℚ))).toNat))]
  rw [if_neg (by rw [hml]; omega)]
  exact ⟨_, rfl⟩

/-- C6 (amended). For every trim fraction in the configured domain [0, 0.5),
the Aggregator never removes every sample: at least the minimum sample count
(10) guarantees a numeric average, and fewer than the minimum yields no
result. (At a trim fraction of 0.5 or more the underlying trimmed mean
empties the slice or rejects the proportion — NaN or ValueError, not the
full mean: see the counterexample.) -/
theorem aggregator_trim_amended (tgt : CalibrationTarget) (t : ℚ)
    (h0 : 0 ≤ t) (h1 : t < 1/2) :
    (tgt.samples.length < 10 → tgt.compute_average t = none) ∧
    (10 ≤ tgt.samples.length → ∃ ax ay, tgt.compute_average t = some (ax, ay)) := by
  constructor
  · intro h
    unfold CalibrationTarget.compute_average
    rw [if_pos h]
  · intro h
    have hlne : tgt.samples ≠ [] := by
      intro hh
      rw [hh] at h
      simp at h
    have hne1 : tgt.samples.map GazeVector.x ≠ [] := by
      intro hh
      exact hlne (List.map_eq_nil_iff.mp hh)
    have hne2 : tgt.samples.map GazeVector.y ≠ [] := by
      intro hh
      exact hlne (List.map_eq_nil_iff.mp hh)
    obtain ⟨qx, hqx⟩ := trim_mean_some (tgt.samples.map GazeVector.x) t h0 h1 hne1
    obtain ⟨qy, hqy⟩ := trim_mean_some (tgt.samples.map GazeVector.y) t h0 h1 hne2
    refine ⟨qx, qy, ?_⟩
    unfold CalibrationTarget.compute_average
    rw [if_neg (not_lt.mpr h), hqx, hqy]

/-- Target holding ten samples at gaze (0, 0). -/
def zeroTarget : CalibrationTarget :=
  ⟨0, 0, 0, [⟨0, 0, 1⟩, ⟨0, 0, 1⟩, ⟨0, 0, 1⟩, ⟨0, 0, 1⟩, ⟨0, 0, 1⟩,
             ⟨0, 0, 1⟩, ⟨0, 0, 1⟩, ⟨0, 0, 1⟩, ⟨0, 0, 1⟩, ⟨0, 0, 1⟩]⟩

/-- C6 (counterexample). At trim fraction 0.5 on ten samples the claim
demands the full (untrimmed) mean, here (0, 0); the code removes
int(0.5 * 10) = 5 samples from each side, leaving an empty slice, so no
numeric result is produced at all. -/
theorem trim_half_counterexample :
    zeroTarget.samples.length = 10 ∧
    zeroTarget.compute_average 0 = some (0, 0) ∧
    zeroTarget.compute_average (1/2) = none ∧
    ¬(zeroTarget.compute_average (1/2) = some (0, 0)) := by
  refine ⟨rfl, ?_, ?_, ?_⟩
  · norm_num [zeroTarget, CalibrationTarget.compute_average, trim_mean, pytrunc,
      pysorted, insertSorted, Int.toNat_ofNat]
  · norm_num [zeroTarget, CalibrationTarget.compute_average, trim_mean, pytrunc,
      pysorted, insertSorted]
    decide
  · norm_num [zeroTarget, CalibrationTarget.compute_average, trim_mean, pytrunc,
      pysorted, insertSorted]
    decide

/-- Target holding nine samples at gaze (1, 2). -/
def nineTarget : CalibrationTarget :=
  ⟨0, 0, 0, [⟨1, 2, 1⟩, ⟨1, 2, 1⟩, ⟨1, 2, 1⟩, ⟨1, 2, 1⟩, ⟨1, 2, 1⟩,
             ⟨1, 2, 1⟩, ⟨1, 2, 1⟩, ⟨1, 2, 1⟩, ⟨1, 2, 1⟩]⟩

/-- Target holding ten samples at gaze (1, 2). -/
def tenTarget : CalibrationTarget :=
  ⟨0, 0, 0, [⟨1, 2, 1⟩, ⟨1, 2, 1⟩, ⟨1, 2, 1⟩, ⟨1, 2, 1⟩, ⟨1, 2, 1⟩,
             ⟨1, 2, 1⟩, ⟨1, 2, 1⟩, ⟨1, 2, 1⟩, ⟨1, 2, 1⟩, ⟨1, 2, 1⟩]⟩

theorem aggregator_trim_amended_witness :
    nineTarget.compute_average (3/20) = none ∧
    (tenTarget.compute_average (3/20)).isSome = true := by
  constructor
  · exact (aggregator_trim_amended nineTarget (3/20) (by norm_num) (by norm_num)).1
      (by simp [nineTarget])
  · obtain ⟨ax, ay, hh⟩ := (aggregator_trim_amended tenTarget (3/20) (by norm_num)
      (by norm_num)).2 (by simp [tenTarget])
    rw [hh]
    rfl

/-- C7 (amended). get_current_target is determined by the target index alone
and ignores the state: changing the state never changes its result; after
start with a nonempty configured position list it returns the first target
(position scaled to the screen, zero samples) even though the state is IDLE;
and whenever the index has passed the last target (in particular in COMPLETED
after a successful run, or before any start when the target list is empty) it
returns none. -/
theorem get_current_target_amended (c : Calibrator) :
    (∀ st : CalibrationState,
      ({ c with state := st } : Calibrator).get_current_target = c.get_current_target) ∧
    (∀ nx ny : ℚ, ∀ rest : List (ℚ × ℚ), c.config.target_positions = (nx, ny) :: rest →
      c.start.state = CalibrationState.IDLE ∧
      c.start.get_current_target =
        some ⟨0, nx * (c.screen_width : ℚ), ny * (c.screen_height : ℚ), []⟩) ∧
    (c.targets.length ≤ c.current_target_index → c.get_current_target = none) := by
  refine ⟨fun st => rfl, ?_, ?_⟩
  · intro nx ny rest hpos
    refine ⟨rfl, ?_⟩
    unfold Calibrator.start Calibrator.get_current_target
    rw [hpos]
    simp [List.enum_cons]
  · intro h
    unfold Calibrator.get_current_target
    rw [if_neg (not_lt.mpr h)]

/-- Calibrator before start, with the five default normalized positions. -/
def freshCalibrator : Calibrator :=
  { config := ⟨90, [(1/2, 1/2), (3/20, 1/2), (17/20, 1/2), (1/2, 3/20), (1/2, 17/20)], 3/20⟩
    screen_width := 1920
    screen_height := 1080
    state := CalibrationState.COMPLETED
    current_target_index := 2
    targets := []
    calibration_data := none }

/-- C7 (counterexample). Immediately after start the state is IDLE — not a
collecting or countdown state — yet get_current_target returns the first
target rather than none: the method checks only the index bounds, never the
state. -/
theorem get_current_target_idle_counterexample :
    freshCalibrator.start.state = CalibrationState.IDLE ∧
    freshCalibrator.start.get_current_target = some ⟨0, 960, 540, []⟩ ∧
    ¬(freshCalibrator.start.get_current_target = none) := by
  have h : freshCalibrator.start.get_current_target = some ⟨0, 960, 540, []⟩ := by
    norm_num [freshCalibrator, Calibrator.start, Calibrator.get_current_target,
      List.enum, List.enumFrom]
  refine ⟨rfl, h, ?_⟩
  rw [h]
  simp

/-- Calibrator whose index has passed its (empty) target list. -/
def doneCalibrator : Calibrator :=
  { config := ⟨90, [], 3/20⟩
    screen_width := 1920
    screen_height := 1080
    state := CalibrationState.COMPLETED
    current_target_index := 5
    targets := []
    calibration_data := none }

theorem get_current_target_amended_witness :
    ({ doneCalibrator with state := CalibrationState.IDLE } : Calibrator).get_current_target =
      doneCalibrator.get_current_target ∧
    doneCalibrator.get_current_target = none :=
  ⟨(get_current_target_amended doneCalibrator).1 CalibrationState.IDLE,
   (get_current_target_amended doneCalibrator).2.2 (by simp [doneCalibrator])⟩

/-- C9. Serializing a valid CalibrationData with to_dict and deserializing
with from_dict restores every field exactly: version, timestamp, screen
dimensions and the point list with identical values in the same order. The
hypothesis isoParsable "" = false records that the empty string is not a
parseable ISO timestamp, so a valid timestamp is nonempty and survives
__post_init__ unchanged. -/
theorem calibration_roundtrip (isoParsable : String → Bool) (now : String)
    (d : CalibrationData) (hemp : isoParsable "" = false)
    (hv : d.validateB isoParsable = true) :
    CalibrationData.from_dict now d.to_dict = d := by
  have hts : d.timestamp ≠ "" := by
    intro hh
    unfold CalibrationData.validateB at hv
    simp only [Bool.and_eq_true] at hv
    have := hv.2
    rw [hh, hemp] at this
    exact Bool.false_ne_true this
  have hcomp : CalibrationPoint.from_dict ∘ CalibrationPoint.to_dict = id :=
    funext fun _ => rfl
  cases d with
  | mk ver ts w h pts =>
    unfold CalibrationData.from_dict CalibrationData.to_dict mkCalibrationData
    simp only [Option.getD_some, List.map_map, hcomp, List.map_id]
    simp only at hts
    rw [if_neg hts]

theorem calibration_roundtrip_witness :
    CalibrationData.from_dict "2030-01-01T00:00:00" simpleCalibration.to_dict =
      simpleCalibration :=
  calibration_roundtrip (fun s => !(s == "")) "2030-01-01T00:00:00" simpleCalibration
    (by decide)
    (by norm_num [CalibrationData.validateB, CalibrationPoint.validateB, simpleCalibration]
        ; decide)

/-- Smoother with the default configuration and no established position. -/
def s10smoother : GazeSmoother := ⟨⟨1/5, 7/200, 35, 4/5⟩, 1920, 1080, none⟩

/-- C10 (amended). The first call after construction or reset adopts the raw
coordinates exactly — truncated to int in the returned value, unclamped in
the stored state, so an off-screen raw input is stored and returned
off-screen. A later call that passes the dead-zone check does produce a
position clamped to [0, dimension - 1] (stored exactly, returned truncated);
a later call absorbed by the dead zone, however, returns the stored position
unchanged, which can still be off-screen (see the counterexample). -/
theorem first_call_adoption_amended (s : GazeSmoother) :
    (∀ rx ry d : ℚ, s.smoothed = none →
      s.smooth rx ry d =
        (⟨pytrunc rx, pytrunc ry, 0⟩, { s with smoothed := some (rx, ry) })) ∧
    (∀ sx sy rx ry d : ℚ, s.smoothed = some (sx, sy) →
      ¬(d < (s.dead_zone_pixels : ℚ)) → 1 ≤ s.screen_width → 1 ≤ s.screen_height →
      ∃ nx ny : ℚ, (s.smooth rx ry d).2.smoothed = some (nx, ny) ∧
        0 ≤ nx ∧ nx ≤ (s.screen_width : ℚ) - 1 ∧
        0 ≤ ny ∧ ny ≤ (s.screen_height : ℚ) - 1 ∧
        (s.smooth rx ry d).1.x = pytrunc nx ∧ (s.smooth rx ry d).1.y = pytrunc ny) := by
  constructor
  · intro rx ry d hs
    unfold GazeSmoother.smooth
    rw [hs]
  · intro sx sy rx ry d hs hdz hw hh
    have hwq : (0 : ℚ) ≤ (s.screen_width : ℚ) - 1 := by
      have h1 : (1 : ℚ) ≤ (s.screen_width : ℚ) := by exact_mod_cast hw
      linarith
    have hhq : (0 : ℚ) ≤ (s.screen_height : ℚ) - 1 := by
      have h1 : (1 : ℚ) ≤ (s.screen_height : ℚ) := by exact_mod_cast hh
      linarith
    unfold GazeSmoother.smooth
    rw [hs]
    dsimp only
    rw [if_neg hdz]
    exact ⟨_, _, rfl, (npClip_bounds _ _ _ hwq).1, (npClip_bounds _ _ _ hwq).2,
      (npClip_bounds _ _ _ hhq).1, (npClip_bounds _ _ _ hhq).2, rfl, rfl⟩

/-- C10 (counterexample). The first call adopts the off-screen raw input
(-100, 0) and returns x = -100; the second call lands inside the dead zone
(distance 0 < threshold 37) and again returns the stored x = -100, an output
outside [0, 1919] on a later call, which the claim says is always clamped. -/
theorem first_call_clamp_counterexample :
    (s10smoother.smooth (-100) 0 0).1.x = -100 ∧
    (s10smoother.smooth (-100) 0 0).2.smoothed = some (-100, 0) ∧
    (0 : ℚ) ^ 2 = ((-100 : ℚ) - (-100)) ^ 2 + ((0 : ℚ) - 0) ^ 2 ∧
    (((s10smoother.smooth (-100) 0 0).2).smooth (-100) 0 0).1.x = -100 ∧
    ¬(0 ≤ (((s10smoother.smooth (-100) 0 0).2).smooth (-100) 0 0).1.x) := by
  have hc : ⌈(-100 : ℚ)⌉ = -100 := by
    rw [show ((-100 : ℚ)) = ((-100 : ℤ) : ℚ) from by norm_num, Int.ceil_intCast]
  have h1 : s10smoother.smooth (-100) 0 0 =
      (⟨-100, 0, 0⟩, { s10smoother with smoothed := some (-100, 0) }) := by
    norm_num [GazeSmoother.smooth, s10smoother, pytrunc, hc]
  have h2 : ({ s10smoother with smoothed := some (-100, 0) } : GazeSmoother).smooth
      (-100) 0 0 = (⟨-100, 0, 0⟩, { s10smoother with smoothed := some (-100, 0) }) := by
    norm_num [GazeSmoother.smooth, GazeSmoother.dead_zone_pixels, s10smoother, pytrunc,
      min_def, hc]
  refine ⟨by rw [h1], by rw [h1], by norm_num, ?_, ?_⟩
  · rw [h1, h2]
  · rw [h1, h2]
    decide

theorem first_call_adoption_amended_witness :
    s10smoother.smooth (-201/2) 300 0 =
      (⟨-100, 300, 0⟩, { s10smoother with smoothed := some (-201/2, 300) }) ∧
    0 ≤ ((defaultSmoother.smooth 2000 0 2000).2.smoothed.getD (0, 0)).1 := by
  constructor
  · have h := (first_call_adoption_amended s10smoother).1 (-201/2) 300 0 rfl
    rw [h]
    norm_num [pytrunc]
    rw [Int.ceil_neg]
    norm_num
  · obtain ⟨nx, ny, h1, h2, -⟩ := (first_call_adoption_amended defaultSmoother).2
      0 0 2000 0 2000 rfl
      (by norm_num [GazeSmoother.dead_zone_pixels, defaultSmoother, pytrunc, min_def])
      (by decide) (by decide)
    rw [h1]
    simpa using h2
